import Mathlib

/-!
Verification development for the tenpy example-notebook repository.

The repository consists of two Jupyter notebooks (a template and a
segment-boundary DMRG example) and a GitHub-Actions workflow that runs the
notebooks under pytest/nbmake.  The notebooks are glue code over the external
tenpy library: we embed them statement by statement (each code cell becomes a
list of statements, markdown narrative cells are not code and are omitted),
embed the CI workflow declaratively, embed the numeric arrays captured in the
notebook output cells, and model from the specification the library
operations (DMRG run, MPS copy, left-boundary projection) that the claims
quantify over but whose code lives in the external library, outside this
repository.
-/

namespace TenpyNotebooks

/-- External python libraries imported by the notebooks. -/
inductive PyLib where
  | tenpy
  | numpy
  | scipy
  | matplotlib
  deriving DecidableEq

/-- A basic (non-compound) python statement of a notebook code cell.
The constructors mirror the statement forms that actually occur in the
repository's cells: imports, calls into the tenpy library, calls into numpy,
matplotlib configuration, parameter-dictionary literals, scalar assignments,
boolean-mask element assignment, dict copies and dict item updates, and bare
display expressions.  `target` is the assigned variable (empty when the value
is discarded or displayed); `fn` and `args` transcribe the call. -/
inductive BasicStmt where
  | importModule (lib : PyLib) (module : String)
  | tenpyCall (target : String) (fn : String) (args : List String)
  | numpyCall (target : String) (fn : String) (args : List String)
  | plotConfig (setting : String) (value : String)
  | dictAssign (target : String) (entries : List (String × String))
  | scalarAssign (target : String) (value : Int)
  | maskElemAssign (target : String) (index : String) (value : Bool)
  | dictCopy (target : String) (source : String)
  | dictItemAssign (dict : String) (key : String) (rhs : String)
  | displayExpr (code : String)
  deriving DecidableEq

/-- A statement of a notebook code cell.  Besides basic statements the type
has constructors for the compound / repository-defined constructs a python
notebook could contain (error handling, function and class definitions,
loops, branches, CLI parsing): none of them occurs in this repository, which
several claims assert. -/
inductive Stmt where
  | basic (s : BasicStmt)
  | tryExcept (body : List BasicStmt) (handler : List BasicStmt)
  | funcDef (name : String) (body : List BasicStmt)
  | classDef (name : String) (body : List BasicStmt)
  | forLoop (var : String) (body : List BasicStmt)
  | ifBranch (cond : String) (thenBody : List BasicStmt) (elseBody : List BasicStmt)
  | cliParse (prog : String)
  | raiseStmt (message : String)
  deriving DecidableEq

/-- A notebook: its title and the statements of its code cells, in order. -/
structure Notebook where
  title : String
  codeCells : List (List Stmt)
  deriving DecidableEq

/-- All statements of a notebook, in execution order. -/
def Notebook.stmts (nb : Notebook) : List Stmt :=
  nb.codeCells.flatten

/-- The template notebook (`_template.ipynb`): it imports numpy, scipy,
matplotlib and tenpy, configures printing/plotting, calls
`tenpy.tools.misc.setup_logging` and `tenpy.show_config()`, and nothing
else. -/
def templateNotebook : Notebook :=
  { title := "Template"
    codeCells :=
      [ [ Stmt.basic (BasicStmt.importModule PyLib.numpy "numpy")
        , Stmt.basic (BasicStmt.importModule PyLib.scipy "scipy")
        , Stmt.basic (BasicStmt.importModule PyLib.matplotlib "matplotlib.pyplot")
        , Stmt.basic (BasicStmt.numpyCall "" "np.set_printoptions"
            ["precision=5", "suppress=True", "linewidth=100"])
        , Stmt.basic (BasicStmt.plotConfig "figure.dpi" "150") ]
      , [ Stmt.basic (BasicStmt.importModule PyLib.tenpy "tenpy")
        , Stmt.basic (BasicStmt.importModule PyLib.tenpy "tenpy.linalg.np_conserved")
        , Stmt.basic (BasicStmt.importModule PyLib.tenpy "tenpy.algorithms.tebd")
        , Stmt.basic (BasicStmt.importModule PyLib.tenpy "tenpy.networks.mps.MPS")
        , Stmt.basic (BasicStmt.tenpyCall "" "tenpy.tools.misc.setup_logging"
            ["to_stdout=INFO"]) ]
      , [ Stmt.basic (BasicStmt.tenpyCall "" "tenpy.show_config" []) ]
      , [] ] }

/-- Code cells 1-3 of the segment notebook: imports and logging setup. -/
def segmentSetupCells : List (List Stmt) :=
  [ [ Stmt.basic (BasicStmt.importModule PyLib.numpy "numpy")
    , Stmt.basic (BasicStmt.importModule PyLib.scipy "scipy")
    , Stmt.basic (BasicStmt.importModule PyLib.matplotlib "matplotlib.pyplot")
    , Stmt.basic (BasicStmt.numpyCall "" "np.set_printoptions"
        ["precision=5", "suppress=True", "linewidth=100"])
    , Stmt.basic (BasicStmt.plotConfig "figure.dpi" "150") ]
  , [ Stmt.basic (BasicStmt.importModule PyLib.tenpy "tenpy")
    , Stmt.basic (BasicStmt.importModule PyLib.tenpy "tenpy.linalg.np_conserved")
    , Stmt.basic (BasicStmt.importModule PyLib.tenpy "tenpy.algorithms.dmrg")
    , Stmt.basic (BasicStmt.importModule PyLib.tenpy "tenpy.networks.mps.MPS")
    , Stmt.basic (BasicStmt.importModule PyLib.tenpy "tenpy.models.xxz_chain.XXZChain")
    , Stmt.basic (BasicStmt.importModule PyLib.tenpy "tenpy.models.tf_ising.TFIChain")
    , Stmt.basic (BasicStmt.tenpyCall "" "tenpy.tools.misc.setup_logging"
        ["to_stdout=INFO"]) ]
  , [ Stmt.basic (BasicStmt.importModule PyLib.tenpy "tenpy.models.lattice.TrivialLattice")
    , Stmt.basic (BasicStmt.importModule PyLib.tenpy "tenpy.models.model.MPOModel")
    , Stmt.basic (BasicStmt.importModule PyLib.tenpy "tenpy.networks.mpo.MPOEnvironment") ] ]

/-- Code cells 4-7 of the segment notebook: the infinite-lattice model, the
first (infinite) DMRG run, and two display cells. -/
def segmentInfiniteCells : List (List Stmt) :=
  [ [ Stmt.basic (BasicStmt.dictAssign "model_params"
        [("J", "1."), ("g", "1.5"), ("L", "2"),
         ("bc_MPS", "infinite"), ("conserve", "best")])
    , Stmt.basic (BasicStmt.tenpyCall "M_i" "TFIChain" ["model_params"]) ]
  , [ Stmt.basic (BasicStmt.tenpyCall "psi0_i" "MPS.from_lat_product_state"
        ["M_i.lat", "[[up]]"])
    , Stmt.basic (BasicStmt.dictAssign "dmrg_params"
        [("mixer", "True"), ("max_E_err", "1.e-10"),
         ("trunc_params.chi_max", "100"), ("trunc_params.svd_min", "1.e-10")])
    , Stmt.basic (BasicStmt.tenpyCall "eng0_i" "dmrg.TwoSiteDMRGEngine"
        ["psi0_i", "M_i", "dmrg_params"])
    , Stmt.basic (BasicStmt.tenpyCall "E0_i, _" "eng0_i.run" [])
    , Stmt.basic (BasicStmt.tenpyCall "resume_psi0_i" "eng0_i.get_resume_data"
        ["sequential_simulations=True"]) ]
  , [ Stmt.basic (BasicStmt.displayExpr "resume_psi0_i") ]
  , [ Stmt.basic (BasicStmt.tenpyCall "" "psi0_i.entanglement_entropy" []) ] ]

/-- Code cell 8 of the segment notebook: extraction of the segment model,
segment state, and converged environments from the infinite run. -/
def segmentExtractCell : List Stmt :=
  [ Stmt.basic (BasicStmt.scalarAssign "enlarge" 10)
  , Stmt.basic (BasicStmt.tenpyCall "M_s" "M_i.extract_segment" ["enlarge=10"])
  , Stmt.basic (BasicStmt.tenpyCall "first, last" "M_s.lat.segment_first_last" [])
  , Stmt.basic (BasicStmt.tenpyCall "psi0_s" "psi0_i.extract_segment" ["first", "last"])
  , Stmt.basic (BasicStmt.tenpyCall "init_env_data"
      "eng0_i.env.get_initialization_data" ["first", "last"])
  , Stmt.basic (BasicStmt.tenpyCall "psi1_s" "psi0_s.copy" [])
  , Stmt.basic (BasicStmt.dictAssign "resume_psi1_s"
      [("init_env_data", "init_env_data")]) ]

/-- Code cell 9 of the segment notebook: the segment DMRG run. -/
def segmentRunCell : List Stmt :=
  [ Stmt.basic (BasicStmt.tenpyCall "eng" "dmrg.TwoSiteDMRGEngine"
      ["psi1_s", "M_s", "dmrg_params", "resume_data=resume_psi1_s"])
  , Stmt.basic (BasicStmt.tenpyCall "E1_s, _" "eng.run" []) ]

/-- Code cell 12 of the segment notebook: projection of the left boundary
onto the largest right Schmidt state, followed by re-canonicalization, the
sanity check, and the replacement of the left environment by a trivial one. -/
def segmentProjectCell : List Stmt :=
  [ Stmt.basic (BasicStmt.tenpyCall "psi_halfinf" "psi0_s.copy" [])
  , Stmt.basic (BasicStmt.tenpyCall "S" "psi0_s.get_SL" ["0"])
  , Stmt.basic (BasicStmt.numpyCall "proj" "np.zeros" ["len(S)", "bool"])
  , Stmt.basic (BasicStmt.maskElemAssign "proj" "np.argmax(S)" true)
  , Stmt.basic (BasicStmt.tenpyCall "B" "psi_halfinf.get_B" ["0", "form=B"])
  , Stmt.basic (BasicStmt.tenpyCall "" "B.iproject" ["proj", "vL"])
  , Stmt.basic (BasicStmt.tenpyCall "" "psi_halfinf.set_B" ["0", "B", "form=B"])
  , Stmt.basic (BasicStmt.tenpyCall "" "psi_halfinf.set_SL" ["0", "np.ones(1, float)"])
  , Stmt.basic (BasicStmt.tenpyCall "" "psi_halfinf.canonical_form_finite" [])
  , Stmt.basic (BasicStmt.tenpyCall "" "psi_halfinf.test_sanity" [])
  , Stmt.basic (BasicStmt.dictCopy "init_env_data_halfinf" "init_env_data")
  , Stmt.basic (BasicStmt.dictItemAssign "init_env_data_halfinf" "init_LP"
      "MPOEnvironment(psi0_i, M_i.H_MPO, psi0_i).init_LP(0, 0)")
  , Stmt.basic (BasicStmt.dictItemAssign "init_env_data_halfinf" "age_LP" "0") ]

/-- Code cell 13 of the segment notebook: the half-infinite segment DMRG run. -/
def segmentHalfinfRunCell : List Stmt :=
  [ Stmt.basic (BasicStmt.tenpyCall "eng_halfinf" "dmrg.TwoSiteDMRGEngine"
      ["psi_halfinf", "M_s", "dmrg_params", "resume_data=init_env_data_halfinf"])
  , Stmt.basic (BasicStmt.tenpyCall "" "eng_halfinf.run" []) ]

/-- Code cells 17-18 of the segment notebook: the defect model (the
transverse field set to zero on the first site) and its DMRG run. -/
def segmentDefectCells : List (List Stmt) :=
  [ [ Stmt.basic (BasicStmt.dictAssign "model_params_defect"
        [("J", "1."), ("g", "[0.] + [model_params[g]] * (psi_halfinf.L-1)"),
         ("L", "psi_halfinf.L"), ("bc_MPS", "segment"), ("conserve", "best")])
    , Stmt.basic (BasicStmt.tenpyCall "M_s_defect" "TFIChain" ["model_params_defect"]) ]
  , [ Stmt.basic (BasicStmt.tenpyCall "psi_defect" "psi_halfinf.copy" [])
    , Stmt.basic (BasicStmt.tenpyCall "eng_defect" "dmrg.TwoSiteDMRGEngine"
        ["psi_defect", "M_s_defect", "dmrg_params", "resume_data=init_env_data_halfinf"])
    , Stmt.basic (BasicStmt.tenpyCall "" "eng_defect.run" []) ] ]

/-- The segment-boundary notebook (`14_segment_half_infinite.ipynb`):
all of its code cells in order, display cells included. -/
def segmentNotebook : Notebook :=
  { title := "Excitations with DMRG and segment boundary conditions"
    codeCells :=
      segmentSetupCells ++ segmentInfiniteCells ++
      [ segmentExtractCell
      , segmentRunCell
      , [ Stmt.basic (BasicStmt.tenpyCall "" "psi1_s.entanglement_entropy" []) ]
      , [ Stmt.basic (BasicStmt.displayExpr
            "psi1_s.entanglement_entropy() - np.mean(psi0_i.entanglement_entropy())") ]
      , segmentProjectCell
      , segmentHalfinfRunCell
      , [ Stmt.basic (BasicStmt.tenpyCall "" "psi_halfinf.entanglement_entropy" []) ]
      , [ Stmt.basic (BasicStmt.tenpyCall "" "psi_halfinf.expectation_value" ["Sigmaz"]) ]
      , [ Stmt.basic (BasicStmt.displayExpr "psi_halfinf.L") ] ] ++
      segmentDefectCells ++
      [ [ Stmt.basic (BasicStmt.tenpyCall "" "psi_defect.entanglement_entropy" []) ]
      , [ Stmt.basic (BasicStmt.tenpyCall "" "psi_defect.expectation_value" ["Sigmaz"]) ] ] }

/-- The notebooks of the repository present in the analysed source tree. -/
def repoNotebooks : List Notebook :=
  [templateNotebook, segmentNotebook]

/-- The segment-boundary DMRG workflow proper: the statements of the cells
that extract the segment, run segment DMRG, project the left boundary, and
run the half-infinite DMRG (cells 8, 9, 12 and 13 of the segment notebook). -/
def segmentWorkflow : List Stmt :=
  segmentExtractCell ++ segmentRunCell ++ segmentProjectCell ++ segmentHalfinfRunCell

/-! Classifiers over the embedded statements. -/

/-- The statement is a call into the tenpy library (including attribute reads
and method calls on tenpy objects). -/
def BasicStmt.isTenpyCall : BasicStmt → Bool
  | BasicStmt.tenpyCall _ _ _ => true
  | _ => false

/-- The statement is a call into numpy. -/
def BasicStmt.isNumpyCall : BasicStmt → Bool
  | BasicStmt.numpyCall _ _ _ => true
  | _ => false

/-- The statement constructs a parameter dictionary. -/
def BasicStmt.isParamDictAssign : BasicStmt → Bool
  | BasicStmt.dictAssign _ _ => true
  | _ => false

/-- The statement constructs or updates parameter data passed to library
calls: a dictionary literal, a scalar constant, a boolean-mask element
assignment, a dict copy, or a dict item update. -/
def BasicStmt.isParamConstruction : BasicStmt → Bool
  | BasicStmt.dictAssign _ _ => true
  | BasicStmt.scalarAssign _ _ => true
  | BasicStmt.maskElemAssign _ _ _ => true
  | BasicStmt.dictCopy _ _ => true
  | BasicStmt.dictItemAssign _ _ _ => true
  | _ => false

/-- The statement, read as a step of the claimed workflow shape: a call into
the tenpy library, or the construction of a parameter dictionary passed to
it.  This is the classification the specification asserts for every step. -/
def Stmt.isTenpyCallOrParamDict : Stmt → Bool
  | Stmt.basic s => s.isTenpyCall || s.isParamDictAssign
  | _ => false

/-- The statement is a call into an external library (tenpy or numpy). -/
def Stmt.isExternalLibraryCall : Stmt → Bool
  | Stmt.basic s => s.isTenpyCall || s.isNumpyCall
  | _ => false

/-- The statement constructs parameter data for library calls. -/
def Stmt.isParamConstruction : Stmt → Bool
  | Stmt.basic s => s.isParamConstruction
  | _ => false

/-- The statement is repository-defined custom logic: a function or class
definition, a loop, a branch, error handling, CLI parsing, or a raise. -/
def Stmt.isCustomLogic : Stmt → Bool
  | Stmt.basic _ => false
  | _ => true

/-- The statement is repository-defined error handling (a try/except block). -/
def Stmt.isErrorHandling : Stmt → Bool
  | Stmt.tryExcept _ _ => true
  | _ => false

/-- The statement is a basic (non-compound) statement. -/
def Stmt.isBasic : Stmt → Bool
  | Stmt.basic _ => true
  | _ => false

/-- The statement defines a command-line interface. -/
def Stmt.isCliDefinition : Stmt → Bool
  | Stmt.cliParse _ => true
  | _ => false

/-- The statement imports the tenpy library. -/
def Stmt.importsTenpy : Stmt → Bool
  | Stmt.basic (BasicStmt.importModule PyLib.tenpy _) => true
  | _ => false

/-- The dictionary entries of a model-parameter dictionary: the notebook's
model parameter dictionaries are exactly those carrying the boundary
condition key `bc_MPS`. -/
def BasicStmt.isModelParamsDict : BasicStmt → Bool
  | BasicStmt.dictAssign _ entries => entries.any (fun e => e.fst == "bc_MPS")
  | _ => false

/-- The statement runs a pre-built tenpy algorithm engine: a `.run()` call on
one of the notebook's `TwoSiteDMRGEngine` instances. -/
def Stmt.isEngineRun : Stmt → Bool
  | Stmt.basic (BasicStmt.tenpyCall _ fn _) =>
      ["eng0_i.run", "eng.run", "eng_halfinf.run", "eng_defect.run"].contains fn
  | _ => false

/-- The statement prints or displays physics results: an
entanglement-entropy or expectation-value evaluation on one of the states. -/
def Stmt.printsResults : Stmt → Bool
  | Stmt.basic (BasicStmt.tenpyCall target fn _) =>
      target == "" &&
      [ "psi0_i.entanglement_entropy", "psi1_s.entanglement_entropy",
        "psi_halfinf.entanglement_entropy", "psi_halfinf.expectation_value",
        "psi_defect.entanglement_entropy", "psi_defect.expectation_value"
      ].contains fn
  | Stmt.basic (BasicStmt.displayExpr _) => true
  | _ => false

/-- The notebook imports the external tenpy library. -/
def Notebook.importsTenpy (nb : Notebook) : Bool :=
  nb.stmts.any Stmt.importsTenpy

/-- The notebook configures model parameters as a parameter dictionary. -/
def Notebook.configuresModelParams (nb : Notebook) : Bool :=
  nb.stmts.any (fun s => match s with
    | Stmt.basic b => b.isModelParamsDict
    | _ => false)

/-- The notebook runs a pre-built algorithm engine. -/
def Notebook.runsEngine (nb : Notebook) : Bool :=
  nb.stmts.any Stmt.isEngineRun

/-- The notebook plots or prints entanglement-entropy or expectation-value
results. -/
def Notebook.printsResults (nb : Notebook) : Bool :=
  nb.stmts.any Stmt.printsResults

/-- The full behaviour the specification claims of every notebook: it
imports the library, configures model parameters, runs a pre-built engine,
and prints results. -/
def Notebook.followsSpecShape (nb : Notebook) : Bool :=
  nb.importsTenpy && nb.configuresModelParams && nb.runsEngine && nb.printsResults

/-! Embedding of the GitHub-Actions workflow "Test notebooks". -/

/-- A trigger of the CI workflow. -/
inductive CITrigger where
  | pushBranches (branches : List String)
  | pullRequestTypes (types : List String)
  deriving DecidableEq

/-- A shell command of a workflow `run:` block.  Every command the workflow
runs is an invocation of an external tool (pip or pytest); the
`otherScript` constructor stands for any repository-authored script logic
and is used by no step. -/
inductive CICommand where
  | pipUpgrade (pkgs : List String)
  | pipInstallGit (url : String)
  | pytestNbmake (dir : String) (ignored : List String) (ignoreWarnings : Bool)
  | otherScript (code : String)
  deriving DecidableEq

/-- A step of the CI job: either a published action or a run block. -/
inductive CIStep where
  | usesAction (action : String) (opts : List (String × String))
  | runCommands (stepName : String) (cmds : List CICommand)
  deriving DecidableEq

/-- The CI workflow: name, triggers, the draft-PR filter on the job, the
runner, and the steps. -/
structure CIWorkflow where
  name : String
  triggers : List CITrigger
  draftsExcluded : Bool
  runsOn : String
  steps : List CIStep
  deriving DecidableEq

/-- The repository's workflow file "Test notebooks", transcribed: it
triggers on pushes to main and on pull requests, skips draft PRs, installs
pytest/nbmake and tenpy, and runs pytest with nbmake on the notebooks,
ignoring notebooks 12 and 14. -/
def testNotebooksWorkflow : CIWorkflow :=
  { name := "Test notebooks"
    triggers :=
      [ CITrigger.pushBranches ["main"]
      , CITrigger.pullRequestTypes
          ["opened", "synchronize", "reopened", "ready_for_review"] ]
    draftsExcluded := true
    runsOn := "ubuntu-latest"
    steps :=
      [ CIStep.usesAction "actions/checkout@v4" [("submodules", "recursive")]
      , CIStep.usesAction "actions/setup-python@v5" [("python-version", "3.12")]
      , CIStep.runCommands "Install dependencies"
          [ CICommand.pipUpgrade ["pip"]
          , CICommand.pipUpgrade ["setuptools", "build"]
          , CICommand.pipUpgrade ["pytest", "nbmake"]
          , CICommand.pipUpgrade ["numpy", "scipy", "matplotlib", "pyyaml", "h5py"] ]
      , CIStep.runCommands "Build and install tenpy"
          [ CICommand.pipInstallGit "git+https://github.com/tenpy/tenpy" ]
      , CIStep.runCommands "Run pytest on notebooks"
          [ CICommand.pytestNbmake "."
              ["12_dmrg_mixer.ipynb", "14_segment_half_infinite.ipynb"] true ] ] }

/-- The notebook filenames a workflow's pytest/nbmake invocations ignore. -/
def CIWorkflow.pytestIgnores (wf : CIWorkflow) : List String :=
  wf.steps.foldr
    (fun st acc => match st with
      | CIStep.runCommands _ cmds =>
          cmds.foldr
            (fun c acc2 => match c with
              | CICommand.pytestNbmake _ ign _ => ign ++ acc2
              | _ => acc2) acc
      | _ => acc) []

/-- The workflow has a pytest/nbmake invocation among its steps. -/
def CIWorkflow.runsPytestNbmake (wf : CIWorkflow) : Bool :=
  wf.steps.any (fun st => match st with
    | CIStep.runCommands _ cmds =>
        cmds.any (fun c => match c with
          | CICommand.pytestNbmake _ _ _ => true
          | _ => false)
    | _ => false)

/-- The workflow triggers on pushes to the given branch. -/
def CIWorkflow.triggersOnPushTo (wf : CIWorkflow) (branch : String) : Bool :=
  wf.triggers.any (fun t => match t with
    | CITrigger.pushBranches bs => bs.contains branch
    | _ => false)

/-- The workflow triggers on pull requests. -/
def CIWorkflow.triggersOnPullRequest (wf : CIWorkflow) : Bool :=
  wf.triggers.any (fun t => match t with
    | CITrigger.pullRequestTypes _ => true
    | _ => false)

/-- The workflow contains a repository-authored script command (anything
other than a pip or pytest invocation). -/
def CIWorkflow.hasOwnScriptLogic (wf : CIWorkflow) : Bool :=
  wf.steps.any (fun st => match st with
    | CIStep.runCommands _ cmds =>
        cmds.any (fun c => match c with
          | CICommand.otherScript _ => true
          | _ => false)
    | _ => false)

/-- Notebook filenames of the repository evidenced by the source tree: the
template notebook file, and the two notebooks the workflow's ignore flags
name (its comments state that notebook 12 runs very long and that notebook
14 — the segment notebook embedded above — is excluded until debugged). -/
def repoNotebookFiles : List String :=
  ["_template.ipynb", "12_dmrg_mixer.ipynb", "14_segment_half_infinite.ipynb"]

/-- The CI job executes the named notebook under pytest/nbmake: pytest
collects every notebook of the repository directory and executes those not
excluded by an ignore flag. -/
def ciExecutesNotebook (file : String) : Bool :=
  repoNotebookFiles.contains file &&
  !(testNotebooksWorkflow.pytestIgnores.contains file)

/-! The source files of the repository, for the claims quantifying over all
of them.  The packaging variant exists in the type so that the absence of
packaging metadata is a statement about the data, not about the type; no
file of the repository is one. -/

/-- A source file of the repository. -/
inductive SourceFile where
  | notebookFile (filename : String) (nb : Notebook)
  | workflowFile (filename : String) (wf : CIWorkflow)
  | packagingFile (filename : String) (metadata : List (String × String))
  deriving DecidableEq

/-- The source files of the repository present in the analysed tree. -/
def sourceFiles : List SourceFile :=
  [ SourceFile.notebookFile "_template.ipynb" templateNotebook
  , SourceFile.notebookFile "14_segment_half_infinite.ipynb" segmentNotebook
  , SourceFile.workflowFile "test_notebooks.yml" testNotebooksWorkflow ]

/-- The file defines a command-line interface of its own. -/
def SourceFile.definesCLI : SourceFile → Bool
  | SourceFile.notebookFile _ nb => nb.stmts.any Stmt.isCliDefinition
  | SourceFile.workflowFile _ _ => false
  | SourceFile.packagingFile _ _ => false

/-- The file is packaging metadata. -/
def SourceFile.isPackagingMetadata : SourceFile → Bool
  | SourceFile.packagingFile _ _ => true
  | _ => false

/-- The file defines orchestration logic of its own: custom control flow in
a notebook, or repository-authored script logic in a workflow (beyond
invoking external actions and tools). -/
def SourceFile.definesOwnOrchestration : SourceFile → Bool
  | SourceFile.notebookFile _ nb => nb.stmts.any Stmt.isCustomLogic
  | SourceFile.workflowFile _ wf => wf.hasOwnScriptLogic
  | SourceFile.packagingFile _ _ => false

/-! Numeric data captured in the segment notebook's output cells.  The
printed floating-point arrays are transcribed as integers in units of
1e-5 (the notebook prints with precision 5), which keeps every statement
about them kernel-decidable; only their lengths and the site count matter
to the claims. -/

/-- The number of sites per unit cell of the infinite model:
`model_params` sets `L = 2` and the output records `TFIChain: reading L=2`. -/
def unitCellLength : Nat := 2

/-- The segment-enlargement factor set in cell 8 of the segment notebook. -/
def enlargeFactor : Nat := 10

/-- Captured output of cell 16: `psi_halfinf.L`. -/
def psi_halfinf_L : Nat := 20

/-- Captured output of cell 17: the defect model reads `L = 20`
(set from `psi_halfinf.L`). -/
def M_s_defect_L : Nat := 20

/-- Captured output of cell 7: `psi0_i.entanglement_entropy()`, ×1e5. -/
def psi0_i_entropy : List Int := [15349, 15349]

/-- Captured output of cell 10: `psi1_s.entanglement_entropy()`, ×1e5:
twenty-one entries, all 0.15349. -/
def psi1_s_entropy : List Int := List.replicate 21 15349

/-- Captured output of cell 14: `psi_halfinf.entanglement_entropy()`, ×1e5
(the first printed entry is -0.). -/
def psi_halfinf_entropy : List Int :=
  [0, 13332, 14834, 15192, 15297, 15331, 15343, 15347, 15348] ++
  List.replicate 12 15349

/-- Captured output of cell 15: `psi_halfinf.expectation_value(Sigmaz)`, ×1e5. -/
def psi_halfinf_sigmaz : List Int :=
  [94082, 88667, 87957, 87797, 87753, 87740, 87735, 87734] ++
  List.replicate 12 87733

/-- Captured output of cell 19: `psi_defect.entanglement_entropy()`, ×1e5. -/
def psi_defect_entropy : List Int :=
  [0, 38126, 24820, 19290, 16987, 16032, 15635, 15469, 15400, 15371,
   15358, 15353, 15351, 15350] ++ List.replicate 7 15349

/-- Captured output of cell 20: `psi_defect.expectation_value(Sigmaz)`, ×1e5. -/
def psi_defect_sigmaz : List Int :=
  [74536, 74534, 83553, 86216, 87149, 87501, 87639, 87694, 87717, 87726,
   87730, 87732, 87732] ++ List.replicate 7 87733

/-! Execution semantics of a notebook for the error-handling claim: a
failure oracle assigns to each basic statement the library error it raises
(if any); running a statement list propagates the first error.  The
repository could in principle catch errors with a try/except statement —
the semantics of `Stmt.tryExcept` below runs the handler instead of
propagating — but no notebook contains one, so every run equals the plain
uncaught fold. -/

/-- An error raised by a library call. -/
structure LibError where
  message : String
  deriving DecidableEq

/-- Execute one basic statement under a failure oracle. -/
def execBasic (fails : BasicStmt → Option LibError) (s : BasicStmt) :
    Except LibError Unit :=
  match fails s with
  | some e => Except.error e
  | none => Except.ok ()

/-- Execute a list of basic statements: stop at the first error. -/
def runBasics (fails : BasicStmt → Option LibError) :
    List BasicStmt → Except LibError Unit
  | [] => Except.ok ()
  | s :: rest =>
    match execBasic fails s with
    | Except.error e => Except.error e
    | Except.ok _ => runBasics fails rest

/-- Execute one statement.  `branch` decides conditions of if statements.
A try/except statement catches an error of its body and runs the handler
instead — the one construct that would stop an error from propagating. -/
def execStmt (fails : BasicStmt → Option LibError) (branch : String → Bool) :
    Stmt → Except LibError Unit
  | Stmt.basic s => execBasic fails s
  | Stmt.tryExcept body handler =>
    match runBasics fails body with
    | Except.error _ => runBasics fails handler
    | Except.ok _ => Except.ok ()
  | Stmt.funcDef _ _ => Except.ok ()
  | Stmt.classDef _ _ => Except.ok ()
  | Stmt.forLoop _ body => runBasics fails body
  | Stmt.ifBranch cond thenBody elseBody =>
    if branch cond then runBasics fails thenBody else runBasics fails elseBody
  | Stmt.cliParse _ => Except.ok ()
  | Stmt.raiseStmt m => Except.error ⟨m⟩

/-- Execute a list of statements: stop at the first error. -/
def runStmts (fails : BasicStmt → Option LibError) (branch : String → Bool) :
    List Stmt → Except LibError Unit
  | [] => Except.ok ()
  | s :: rest =>
    match execStmt fails branch s with
    | Except.error e => Except.error e
    | Except.ok _ => runStmts fails branch rest

/-- The basic statements underlying a statement list (the notebooks consist
of basic statements only). -/
def basicsOf : List Stmt → List BasicStmt
  | [] => []
  | Stmt.basic s :: rest => s :: basicsOf rest
  | _ :: rest => basicsOf rest

/-- The first library error the oracle raises along a basic statement list. -/
def firstFailure (fails : BasicStmt → Option LibError) :
    List BasicStmt → Option LibError
  | [] => none
  | s :: rest =>
    match fails s with
    | some e => some e
    | none => firstFailure fails rest

/-- Running a basic statement list returns exactly the first failure,
unchanged. -/
theorem runBasics_eq_firstFailure (fails : BasicStmt → Option LibError)
    (bs : List BasicStmt) :
    runBasics fails bs =
      (match firstFailure fails bs with
       | some e => Except.error e
       | none => Except.ok ()) := by
  induction bs with
  | nil => rfl
  | cons s rest ih =>
    simp only [runBasics, firstFailure, execBasic]
    cases fails s with
    | some e => rfl
    | none => simpa using ih

/-- On a statement list made of basic statements only, running equals the
plain uncaught run of the underlying basic statements. -/
theorem runStmts_of_allBasic (fails : BasicStmt → Option LibError)
    (branch : String → Bool) (l : List Stmt) (h : l.all Stmt.isBasic = true) :
    runStmts fails branch l = runBasics fails (basicsOf l) := by
  induction l with
  | nil => rfl
  | cons s rest ih =>
    simp only [List.all_cons, Bool.and_eq_true] at h
    cases s with
    | basic b =>
      simp only [runStmts, execStmt, basicsOf, runBasics]
      cases execBasic fails b with
      | error e => rfl
      | ok _ => exact ih h.2
    | tryExcept body handler => simp [Stmt.isBasic] at h
    | funcDef n body => simp [Stmt.isBasic] at h
    | classDef n body => simp [Stmt.isBasic] at h
    | forLoop v body => simp [Stmt.isBasic] at h
    | ifBranch c t e => simp [Stmt.isBasic] at h
    | cliParse p => simp [Stmt.isBasic] at h
    | raiseStmt m => simp [Stmt.isBasic] at h

/-! A frame model of the segment DMRG run (claim about fixed environments).
The two-site DMRG engine itself lives in the external tenpy library, not in
this repository, so it is modelled from the specification. -/

/-- Modelled from the spec: the state of a segment DMRG run of
`tenpy.algorithms.dmrg.TwoSiteDMRGEngine` (not part of this repository).
`tensors` holds the tensor data of every site of the infinite chain
(the `A` tensors of the left half-infinite chain, the `C` tensors of the
segment window, and the `B` tensors of the right half-infinite chain);
`init_LP` and `init_RP` hold the boundary environments passed in through
`resume_data`s `init_env_data`.  Tensor contents are abstracted to natural
numbers: the claim is about which parts of the state change. -/
structure SegmentRunState where
  tensors : Int → Nat
  init_LP : Nat
  init_RP : Nat

/-- Modelled from the spec: a two-site local optimizer.  Given the bond
position, the current chain tensors and the two fixed boundary
environments, it returns the new pair of tensors for the two active sites.
It is kept abstract (any function): the frame property holds whatever the
Lanczos/truncation step computes. -/
def TwoSiteUpdate : Type :=
  Int → (Int → Nat) → Nat → Nat → Nat × Nat

/-- Modelled from the spec: one two-site update at bond `i` replaces the
tensors of sites `i` and `i + 1` and touches nothing else; the boundary
environments are read, never written. -/
def updateBond (opt : TwoSiteUpdate) (i : Int) (st : SegmentRunState) :
    SegmentRunState :=
  let nw := opt i st.tensors st.init_LP st.init_RP
  { st with
    tensors := fun j =>
      if j = i then nw.1 else if j = i + 1 then nw.2 else st.tensors j }

/-- Modelled from the spec: a segment DMRG run under segment boundary
conditions is a sequence of two-site updates at bonds inside the window
(the engine sweeps right and left through the segment, in any order and
any number of sweeps: `bonds` is the list of visited bond positions). -/
def runSegmentDMRG (opt : TwoSiteUpdate) (bonds : List Int)
    (st : SegmentRunState) : SegmentRunState :=
  bonds.foldl (fun s i => updateBond opt i s) st

/-- One bond update changes no tensor outside the two active sites and
leaves both boundary environments unchanged. -/
theorem updateBond_frame (opt : TwoSiteUpdate) (i : Int)
    (st : SegmentRunState) (j : Int) (hj : j ≠ i ∧ j ≠ i + 1) :
    (updateBond opt i st).tensors j = st.tensors j ∧
    (updateBond opt i st).init_LP = st.init_LP ∧
    (updateBond opt i st).init_RP = st.init_RP := by
  refine ⟨?_, rfl, rfl⟩
  simp only [updateBond, if_neg hj.1, if_neg hj.2]

/-! A dimension-level model of a tenpy segment MPS and of the left-boundary
projection sequence of cell 12.  The MPS class lives in the external tenpy
library, not in this repository, so its operations are modelled from the
specification. -/

/-- Modelled from the spec: the structural data of a tenpy MPS with segment
boundary conditions that the internal consistency check `test_sanity`
inspects.  `B_vL` and `B_vR` are the left and right virtual-leg dimensions
of the `B` tensor on each of the `L` sites; `S` are the singular-value
vectors, one per bond, `L + 1` of them (both boundary bonds included for a
segment).  Tensor entries are abstracted away; the claim is about dimension
consistency. -/
structure SegMPS where
  B_vL : List Nat
  B_vR : List Nat
  S : List (List ℚ)
  deriving DecidableEq, Inhabited

/-- Modelled from the spec: `MPS.test_sanity` checks the internal
consistency of the state — matching site counts, one singular-value vector
per bond, and on every site the left leg dimension equal to the length of
the singular-value vector on the left bond and the right leg dimension
equal to the length of the vector on the right bond. -/
def SegMPS.test_sanity (psi : SegMPS) : Bool :=
  psi.B_vL.length == psi.B_vR.length &&
  psi.S.length == psi.B_vL.length + 1 &&
  (List.range psi.B_vL.length).all (fun i =>
    ((psi.S.getD i []).length == psi.B_vL.getD i 0) &&
    (psi.B_vR.getD i 0 == (psi.S.getD (i + 1) []).length))

/-- Modelled from the spec: `psi.get_SL(0)` returns the singular values on
the left boundary bond. -/
def SegMPS.get_SL0 (psi : SegMPS) : List ℚ :=
  psi.S.getD 0 []

/-- The index of the first maximal entry, as `np.argmax` computes it
(0 on an empty list, as a Lean total function). -/
def argmax : List ℚ → Nat
  | [] => 0
  | [_] => 0
  | x :: y :: xs =>
    if x < (y :: xs).getD (argmax (y :: xs)) 0 then argmax (y :: xs) + 1 else 0

/-- The boolean mask built in cell 12: `np.zeros(len(S), bool)` followed by
`proj[np.argmax(S)] = True` — False everywhere except at the index of the
largest Schmidt value. -/
def leftSchmidtMask (S0 : List ℚ) : List Bool :=
  (List.replicate S0.length false).set (argmax S0) true

/-- Modelled from the spec: `B.iproject(proj, vL)` keeps only the
True-indexed slice of the left virtual leg, and `set_B(0, B)` stores the
tensor back: in the dimension model the left leg dimension of site 0
becomes the number of True entries of the mask. -/
def SegMPS.project_B0_vL (psi : SegMPS) (mask : List Bool) : SegMPS :=
  { psi with B_vL := psi.B_vL.set 0 (mask.count true) }

/-- Modelled from the spec: `psi.set_SL(0, v)` replaces the singular values
on the left boundary bond. -/
def SegMPS.set_SL0 (psi : SegMPS) (v : List ℚ) : SegMPS :=
  { psi with S := psi.S.set 0 v }

/-- Normalization of one singular-value vector (division by the sum of
squares unless it vanishes); it keeps the vector's length. -/
def normalizeSV (v : List ℚ) : List ℚ :=
  let n := v.foldl (fun a x => a + x * x) 0
  if n = 0 then v else v.map (fun x => x / n)

/-- Modelled from the spec: `psi.canonical_form_finite()` brings the finite
or segment MPS to canonical form by sweeps of QR/SVD without truncation:
the site count and the bond dimensions are preserved and the singular-value
vectors are recomputed, normalized, one per bond. -/
def SegMPS.canonical_form_finite (psi : SegMPS) : SegMPS :=
  { psi with S := psi.S.map normalizeSV }

/-- The left-boundary projection sequence of cell 12, applied to (a copy
of) the segment ground state: build the mask from `get_SL(0)`, project the
site-0 B tensor, set the left singular values to the one-element vector
`[1.0]`, and re-canonicalize. -/
def projectLeftBoundary (psi0_s : SegMPS) : SegMPS :=
  let proj := leftSchmidtMask psi0_s.get_SL0
  ((psi0_s.project_B0_vL proj).set_SL0 [1]).canonical_form_finite

/-- `argmax` indexes into its (nonempty) list. -/
theorem argmax_lt_length (l : List ℚ) (h : l ≠ []) : argmax l < l.length := by
  induction l with
  | nil => exact absurd rfl h
  | cons x rest ih =>
    cases rest with
    | nil => simp [argmax]
    | cons y xs =>
      have hr : argmax (y :: xs) < (y :: xs).length := ih (by simp)
      simp only [argmax]
      split
      · simpa using Nat.succ_lt_succ hr
      · simp

/-- The count of True entries of a one-hot mask. -/
theorem count_replicate_set_true (n a : Nat) (h : a < n) :
    ((List.replicate n false).set a true).count true = 1 := by
  induction n generalizing a with
  | zero => exact absurd h (Nat.not_lt_zero a)
  | succ m ih =>
    cases a with
    | zero =>
      simp [List.replicate_succ, List.count_cons, List.count_replicate]
    | succ b =>
      have hb : b < m := Nat.lt_of_succ_lt_succ h
      simp [List.replicate_succ, List.count_cons, ih b hb]

/-- The one-hot mask of cell 12 has exactly one True entry. -/
theorem leftSchmidtMask_count (S0 : List ℚ) (h : S0 ≠ []) :
    (leftSchmidtMask S0).count true = 1 := by
  have := argmax_lt_length S0 h
  exact count_replicate_set_true S0.length (argmax S0) (by simpa using this)

/-- `getD` after `set` at a different index is unchanged. -/
theorem getD_set_ne {α : Type} (l : List α) (i j : Nat) (a d : α) (h : i ≠ j) :
    (l.set i a).getD j d = l.getD j d := by
  simp [List.getD_eq_getD_get?, List.get?_eq_getElem?, List.getElem?_set_ne h]

/-- `getD` after `set` at the same (valid) index returns the new value. -/
theorem getD_set_self {α : Type} (l : List α) (i : Nat) (a d : α)
    (h : i < l.length) :
    (l.set i a).getD i d = a := by
  rw [List.getD_eq_getElem _ _ (by simpa using h)]
  exact List.getElem_set_self _

/-- Normalization keeps the length of a singular-value vector. -/
theorem normalizeSV_length (v : List ℚ) : (normalizeSV v).length = v.length := by
  unfold normalizeSV
  by_cases h : v.foldl (fun a x => a + x * x) 0 = 0 <;> simp [h]

/-- `getD` through the map of `canonical_form_finite` at a valid index. -/
theorem getD_map_normalizeSV (S : List (List ℚ)) (i : Nat) (h : i < S.length) :
    (S.map normalizeSV).getD i [] = normalizeSV (S.getD i []) := by
  rw [List.getD_eq_getElem _ _ (by simpa using h), List.getD_eq_getElem _ _ h]
  exact List.getElem_map _

/-- The projection sequence, written out on the record fields. -/
theorem projectLeftBoundary_eq (psi : SegMPS) :
    projectLeftBoundary psi =
      { B_vL := psi.B_vL.set 0 ((leftSchmidtMask psi.get_SL0).count true)
        B_vR := psi.B_vR
        S := (psi.S.set 0 [1]).map normalizeSV } := rfl

/-- The left-boundary projection sequence preserves the sanity invariant
and leaves a left boundary bond of dimension 1. -/
theorem projectLeftBoundary_sane (psi : SegMPS)
    (hsane : psi.test_sanity = true)
    (hS0 : psi.get_SL0 ≠ [])
    (hL : 0 < psi.B_vL.length) :
    (projectLeftBoundary psi).test_sanity = true ∧
    (projectLeftBoundary psi).B_vL.getD 0 0 = 1 := by
  rw [SegMPS.test_sanity, Bool.and_eq_true, Bool.and_eq_true] at hsane
  obtain ⟨⟨h1, h2⟩, h3⟩ := hsane
  rw [beq_iff_eq] at h1
  rw [beq_iff_eq] at h2
  rw [List.all_eq_true] at h3
  have hcnt : (leftSchmidtMask psi.get_SL0).count true = 1 :=
    leftSchmidtMask_count _ hS0
  have hS0lt : 0 < psi.S.length := by omega
  have hvl0 : (psi.B_vL.set 0 ((leftSchmidtMask psi.get_SL0).count true)).getD 0 0 = 1 := by
    rw [getD_set_self _ _ _ _ hL, hcnt]
  rw [projectLeftBoundary_eq]
  refine ⟨?_, hvl0⟩
  rw [SegMPS.test_sanity, Bool.and_eq_true, Bool.and_eq_true]
  refine ⟨⟨?_, ?_⟩, ?_⟩
  · simpa using h1
  · simpa using h2
  · rw [List.all_eq_true]
    intro i hi
    rw [List.mem_range, List.length_set] at hi
    have hiS : i < (psi.S.set 0 [1]).length := by
      rw [List.length_set]; omega
    have hi1S : i + 1 < (psi.S.set 0 [1]).length := by
      rw [List.length_set]; omega
    have h3i := h3 i (List.mem_range.mpr hi)
    rw [Bool.and_eq_true, beq_iff_eq, beq_iff_eq] at h3i
    rw [Bool.and_eq_true, beq_iff_eq, beq_iff_eq]
    constructor
    · -- left leg of site i vs singular values on bond i
      rw [getD_map_normalizeSV _ i hiS, normalizeSV_length]
      cases i with
      | zero =>
        rw [getD_set_self _ _ _ _ hS0lt, getD_set_self _ _ _ _ hL, hcnt]
        rfl
      | succ n =>
        rw [getD_set_ne _ _ _ _ _ (Nat.zero_ne_add_one n),
            getD_set_ne _ _ _ _ _ (Nat.zero_ne_add_one n)]
        exact h3i.1
    · -- right leg of site i vs singular values on bond i + 1
      rw [getD_map_normalizeSV _ (i + 1) hi1S, normalizeSV_length,
          getD_set_ne _ _ _ _ _ (Nat.zero_ne_add_one i)]
      exact h3i.2

/-! A heap model of the notebook's MPS objects for the copy-isolation
claim.  `MPS.copy` lives in the external tenpy library, so it is modelled
from the specification. -/

/-- Modelled from the spec: the store of MPS objects of a running notebook;
a reference (a python variable such as `psi0_s`, `psi1_s`, `psi_halfinf`)
is an index into the store. -/
structure ObjectStore where
  objs : List SegMPS
  deriving DecidableEq

/-- Modelled from the spec: `psi.copy()` allocates a fresh, independent
object holding the same data and returns its reference; the store grows by
one and existing references are untouched. -/
def ObjectStore.copyObj (st : ObjectStore) (r : Nat) : ObjectStore × Nat :=
  (⟨st.objs ++ [st.objs.getD r default]⟩, st.objs.length)

/-- An in-place library operation on one object (such as the DMRG
optimization of `psi1_s` in cell 9, or the projection and
re-canonicalization of `psi_halfinf` in cell 12) replaces the object a
reference points to by an arbitrary function of it. -/
def ObjectStore.mutateObj (st : ObjectStore) (r : Nat) (f : SegMPS → SegMPS) :
    ObjectStore :=
  ⟨st.objs.set r (f (st.objs.getD r default))⟩

/-! The claims. -/

/-- C1, counterexample: the segment-boundary workflow is not literally a
sequence of tenpy-API calls and parameter-dictionary constructions — the
left-boundary projection cell builds the boolean projection mask with a
numpy call (`proj = np.zeros(len(S), bool)`), which is neither, and cell 8
also assigns the plain scalar `enlarge = 10`. -/
theorem c1_not_every_step_tenpy_or_paramdict :
    Stmt.isTenpyCallOrParamDict
        (Stmt.basic (BasicStmt.numpyCall "proj" "np.zeros" ["len(S)", "bool"])) = false ∧
    Stmt.basic (BasicStmt.numpyCall "proj" "np.zeros" ["len(S)", "bool"])
        ∈ segmentWorkflow ∧
    segmentWorkflow.all Stmt.isTenpyCallOrParamDict = false := by
  decide

/-- C1 (amended): every step of the segment-boundary DMRG workflow is a call
into an external library (tenpy, or numpy for the projection mask) or the
construction of parameter data passed to such calls (a dictionary, a scalar
constant, a mask element assignment, a dict copy or a dict item update),
and no step is repository-defined custom logic — no function or class
definition, loop, branch, error handling, or CLI parsing. -/
theorem c1_segment_workflow_is_library_glue :
    segmentWorkflow.all
        (fun s => s.isExternalLibraryCall || s.isParamConstruction) = true ∧
    segmentWorkflow.all (fun s => !(s.isCustomLogic)) = true := by
  decide

/-- C2, counterexample: the template notebook does not satisfy the claimed
shape — it imports the library and prints its configuration, but configures
no model parameters and runs no algorithm engine. -/
theorem c2_template_notebook_runs_no_engine :
    templateNotebook ∈ repoNotebooks ∧
    templateNotebook.followsSpecShape = false ∧
    templateNotebook.configuresModelParams = false ∧
    templateNotebook.runsEngine = false := by
  decide

/-- C2 (amended): every notebook imports the external library; the segment
notebook configures model parameters, runs the two-site DMRG engine, and
prints entanglement-entropy and expectation-value results; the template
notebook does neither of the latter — it only imports the libraries,
configures printing and plotting, and prints the library configuration. -/
theorem c2_notebooks_follow_spec_shape_except_template :
    repoNotebooks.all Notebook.importsTenpy = true ∧
    segmentNotebook.followsSpecShape = true ∧
    repoNotebooks.all
        (fun nb => nb.followsSpecShape || (nb.title == "Template")) = true := by
  decide

/-- C3, counterexample: the CI workflow does not execute every notebook of
the repository — its pytest invocation ignores `14_segment_half_infinite.ipynb`
(and `12_dmrg_mixer.ipynb`), so the segment notebook is not run. -/
theorem c3_ci_skips_segment_notebook :
    "14_segment_half_infinite.ipynb" ∈ repoNotebookFiles ∧
    ciExecutesNotebook "14_segment_half_infinite.ipynb" = false ∧
    repoNotebookFiles.all ciExecutesNotebook = false := by
  decide

/-- C3 (amended): the CI workflow runs the repository's notebooks as tests
under pytest with nbmake, triggered on pushes to main and on (non-draft)
pull requests, executing every notebook except the two its ignore flags
exclude (`12_dmrg_mixer.ipynb` and `14_segment_half_infinite.ipynb`). -/
theorem c3_ci_runs_nonignored_notebooks :
    testNotebooksWorkflow.triggersOnPushTo "main" = true ∧
    testNotebooksWorkflow.triggersOnPullRequest = true ∧
    testNotebooksWorkflow.runsPytestNbmake = true ∧
    testNotebooksWorkflow.pytestIgnores =
      ["12_dmrg_mixer.ipynb", "14_segment_half_infinite.ipynb"] ∧
    repoNotebookFiles.all
        (fun f => ciExecutesNotebook f ==
          !(testNotebooksWorkflow.pytestIgnores.contains f)) = true := by
  decide

/-- C4: a segment DMRG run with resume data carrying the converged infinite
environments performs two-site updates only at bonds inside the segment
window, so the boundary environments `init_LP`, `init_RP` and every tensor
outside the window remain unchanged; only tensors inside the window are
optimized. -/
theorem c4_segment_dmrg_preserves_outside (opt : TwoSiteUpdate)
    (bonds : List Int) (first last : Int) (st : SegmentRunState)
    (hb : ∀ i ∈ bonds, first ≤ i ∧ i + 1 ≤ last) (j : Int)
    (hj : j < first ∨ last < j) :
    (runSegmentDMRG opt bonds st).tensors j = st.tensors j ∧
    (runSegmentDMRG opt bonds st).init_LP = st.init_LP ∧
    (runSegmentDMRG opt bonds st).init_RP = st.init_RP := by
  revert hb
  induction bonds generalizing st with
  | nil => intro hb; exact ⟨rfl, rfl, rfl⟩
  | cons i rest ih =>
    intro hb
    obtain ⟨hi1, hi2⟩ := hb i (List.mem_cons_self i rest)
    have hrest : ∀ k ∈ rest, first ≤ k ∧ k + 1 ≤ last :=
      fun k hk => hb k (List.mem_cons_of_mem i hk)
    have hji : j ≠ i ∧ j ≠ i + 1 := by
      rcases hj with hlt | hgt
      · constructor <;> omega
      · constructor <;> omega
    have frame := updateBond_frame opt i st j hji
    have ihr := ih (updateBond opt i st) hrest
    exact ⟨ihr.1.trans frame.1, ihr.2.1.trans frame.2.1,
           ihr.2.2.trans frame.2.2⟩

/-- C4, witness: a concrete three-bond run on a window `[0, 19]` leaves the
tensor at site `-1` and both environments untouched. -/
theorem c4_segment_dmrg_preserves_outside_witness :
    (∀ i ∈ ([0, 1, 2] : List Int), (0 : Int) ≤ i ∧ i + 1 ≤ 19) ∧
    ((-1 : Int) < 0 ∨ (19 : Int) < -1) ∧
    ((runSegmentDMRG (fun _ t _ _ => (t 0 + 1, t 1 + 1)) [0, 1, 2]
        ⟨fun _ => 7, 3, 4⟩).tensors (-1) = 7 ∧
     (runSegmentDMRG (fun _ t _ _ => (t 0 + 1, t 1 + 1)) [0, 1, 2]
        ⟨fun _ => 7, 3, 4⟩).init_LP = 3 ∧
     (runSegmentDMRG (fun _ t _ _ => (t 0 + 1, t 1 + 1)) [0, 1, 2]
        ⟨fun _ => 7, 3, 4⟩).init_RP = 4) :=
  ⟨by decide, Or.inl (by decide),
   c4_segment_dmrg_preserves_outside (fun _ t _ _ => (t 0 + 1, t 1 + 1))
     [0, 1, 2] 0 19 ⟨fun _ => 7, 3, 4⟩ (by decide) (-1) (Or.inl (by decide))⟩

/-- C5: no statement of any notebook is error handling (no try/except
exists), and under every failure oracle a notebook run returns exactly the
first library error raised, unchanged — nothing is caught, transformed, or
recovered from by repository code. -/
theorem c5_errors_propagate_uncaught :
    ((templateNotebook.stmts ++ segmentNotebook.stmts).all
        (fun s => !(s.isErrorHandling))) = true ∧
    (∀ (fails : BasicStmt → Option LibError) (branch : String → Bool),
      runStmts fails branch templateNotebook.stmts =
        (match firstFailure fails (basicsOf templateNotebook.stmts) with
         | some e => Except.error e
         | none => Except.ok ())) ∧
    (∀ (fails : BasicStmt → Option LibError) (branch : String → Bool),
      runStmts fails branch segmentNotebook.stmts =
        (match firstFailure fails (basicsOf segmentNotebook.stmts) with
         | some e => Except.error e
         | none => Except.ok ())) := by
  refine ⟨by decide, ?_, ?_⟩ <;>
  · intro fails branch
    rw [runStmts_of_allBasic fails branch _ (by decide),
        runBasics_eq_firstFailure]

/-- C6: no source file of the repository defines a command-line interface,
packaging metadata, or orchestration logic of its own — the notebooks hold
no CLI or custom control flow, the workflow only invokes published actions
and external tools, and no packaging file exists. -/
theorem c6_no_cli_packaging_or_orchestration :
    sourceFiles.all
        (fun f => !(f.definesCLI) && !(f.isPackagingMetadata) &&
          !(f.definesOwnOrchestration)) = true := by
  decide

/-- C7, counterexample: the per-bond entanglement-entropy array of the
segment state does not have length equal to the site count — the captured
output has 21 entries (one per bond, both boundary bonds included) while
`psi_halfinf.L` is 20. -/
theorem c7_entropy_array_has_21_entries :
    psi_halfinf_L = 20 ∧
    psi_halfinf_entropy.length = 21 ∧
    ¬(psi_halfinf_entropy.length = psi_halfinf_L) := by
  decide

/-- C7 (amended): extracting the segment with enlarge = 10 from the 2-site
unit cell yields segment states with exactly L = 20 = enlarge × 2 sites,
matching the lengths of the per-site expectation-value arrays; the per-bond
entanglement-entropy arrays have L + 1 = 21 entries. -/
theorem c7_segment_length_twenty :
    psi_halfinf_L = enlargeFactor * unitCellLength ∧
    psi_halfinf_L = 20 ∧
    M_s_defect_L = psi_halfinf_L ∧
    psi_halfinf_sigmaz.length = psi_halfinf_L ∧
    psi_defect_sigmaz.length = psi_halfinf_L ∧
    psi1_s_entropy.length = psi_halfinf_L + 1 ∧
    psi_halfinf_entropy.length = psi_halfinf_L + 1 ∧
    psi_defect_entropy.length = psi_halfinf_L + 1 := by
  decide

/-- C8: starting from a sane segment state with a nonempty left boundary
bond, the left-boundary projection sequence of cell 12 (one-hot mask at the
argmax of the Schmidt values, iproject of the site-0 left leg, left
singular values set to `[1.0]`, canonical_form_finite) yields a state with
left boundary bond dimension 1 that passes `test_sanity`. -/
theorem c8_left_projection_preserves_sanity (psi : SegMPS)
    (hsane : psi.test_sanity = true)
    (hS0 : psi.get_SL0 ≠ [])
    (hL : 0 < psi.B_vL.length) :
    (projectLeftBoundary psi).test_sanity = true ∧
    (projectLeftBoundary psi).B_vL.getD 0 0 = 1 :=
  projectLeftBoundary_sane psi hsane hS0 hL

/-- A small concrete sane two-site segment state with left bond dimension
3, used to instantiate the copy and projection claims. -/
def sampleSegmentState : SegMPS :=
  ⟨[3, 2], [2, 1], [[2, 1, 1], [1, 1], [1]]⟩

/-- C8, witness: the projection sequence applied to a concrete sane state. -/
theorem c8_left_projection_preserves_sanity_witness :
    sampleSegmentState.test_sanity = true ∧
    sampleSegmentState.get_SL0 ≠ [] ∧
    0 < sampleSegmentState.B_vL.length ∧
    ((projectLeftBoundary sampleSegmentState).test_sanity = true ∧
     (projectLeftBoundary sampleSegmentState).B_vL.getD 0 0 = 1) :=
  ⟨by decide, by decide, by decide,
   c8_left_projection_preserves_sanity sampleSegmentState
     (by decide) (by decide) (by decide)⟩

/-- C9: `MPS.copy` isolates the original — copying an object yields a fresh
reference distinct from the original whose content starts equal to it, and
any subsequent in-place mutation through the copy's reference (a DMRG run,
a projection and re-canonicalization) leaves the object at the original
reference unchanged. -/
theorem c9_copy_isolates_original (st : ObjectStore) (r : Nat)
    (h : r < st.objs.length) (f : SegMPS → SegMPS) :
    ((st.copyObj r).1.mutateObj (st.copyObj r).2 f).objs.getD r default =
      st.objs.getD r default ∧
    (st.copyObj r).1.objs.getD (st.copyObj r).2 default =
      st.objs.getD r default ∧
    (st.copyObj r).2 ≠ r := by
  have hne : st.objs.length ≠ r := ne_of_gt h
  refine ⟨?_, ?_, hne⟩
  · show ((st.objs ++ [st.objs.getD r default]).set st.objs.length _).getD r default = _
    rw [getD_set_ne _ _ _ _ _ hne, List.getD_append _ _ _ _ h]
  · show (st.objs ++ [st.objs.getD r default]).getD st.objs.length default = _
    rw [List.getD_append_right _ _ _ _ (Nat.le_refl _), Nat.sub_self]
    rfl

/-- C9, witness: a store holding one concrete state; the copy is projected
in place and the original entry is unchanged. -/
theorem c9_copy_isolates_original_witness :
    0 < (ObjectStore.mk [sampleSegmentState]).objs.length ∧
    (((ObjectStore.mk [sampleSegmentState]).copyObj 0).1.mutateObj
        ((ObjectStore.mk [sampleSegmentState]).copyObj 0).2
        projectLeftBoundary).objs.getD 0 default =
      (ObjectStore.mk [sampleSegmentState]).objs.getD 0 default ∧
    ((ObjectStore.mk [sampleSegmentState]).copyObj 0).1.objs.getD
        ((ObjectStore.mk [sampleSegmentState]).copyObj 0).2 default =
      (ObjectStore.mk [sampleSegmentState]).objs.getD 0 default ∧
    ((ObjectStore.mk [sampleSegmentState]).copyObj 0).2 ≠ 0 :=
  ⟨by decide,
   c9_copy_isolates_original (ObjectStore.mk [sampleSegmentState]) 0
     (by decide) projectLeftBoundary⟩

end TenpyNotebooks
